import Mathlib

/-!
Shallow embedding of the EMA crossover alert program (`emacrossover.py`).

Decimal prices and EMA values are modelled as rationals (`ℚ`).  Network
effects (the Binance kline fetches and the Telegram sends) are modelled by
passing their results in explicitly: a `FetchEnv` holds, per timeframe, the
result of `get_ema_values` (with `none` standing for a raised
`requests.exceptions.RequestException`), and a delivery oracle gives the HTTP
result of each Telegram post.  Everything else is a direct translation of the
Python functions.
-/

set_option autoImplicit false

/-- Trade direction: the `"LONG"` / `"SHORT"` strings of the Python code. -/
inductive Direction where
  | LONG
  | SHORT
deriving DecidableEq

/-- The dict returned by `get_ema_values` (`emacrossover.py` lines 61-76):
fast/slow EMA at the last closed candle (`iloc[-2]`) and at the candle before
(`iloc[-3]`), plus close time and close price of the last closed candle. -/
structure EMASnapshot where
  ema_fast : ℚ
  ema_slow : ℚ
  ema_fast_prev : ℚ
  ema_slow_prev : ℚ
  close_time : ℕ
  close_price : ℚ
deriving DecidableEq

/-- Smoothing factor used by `pandas.DataFrame.ewm(span=period)`:
`α = 2 / (span + 1)`. -/
def alpha (span : ℕ) : ℚ := 2 / ((span : ℚ) + 1)

/-- One step of `adjust=False` exponential smoothing:
`ema_i = price_i * α + ema_{i-1} * (1 - α)`. -/
def emaStep (a prev price : ℚ) : ℚ := price * a + prev * (1 - a)

/-- The tail of the `adjust=False` exponential smoothing recurrence, carrying
the previous output value. -/
def emaGo (a : ℚ) : ℚ → List ℚ → List ℚ
  | _, [] => []
  | prev, price :: rest => emaStep a prev price :: emaGo a (emaStep a prev price) rest

/-- `calculate_ema` (`emacrossover.py` lines 56-58): the semantics of
`df[column].ewm(span=period, adjust=False).mean()` on the closing prices —
the first output equals the first input, and each further output follows the
smoothing recurrence with `α = 2 / (span + 1)`. -/
def calculate_ema (closes : List ℚ) (period : ℕ) : List ℚ :=
  match closes with
  | [] => []
  | p :: ps => p :: emaGo (alpha period) p ps

lemma emaGo_length (a prev : ℚ) (xs : List ℚ) :
    (emaGo a prev xs).length = xs.length := by
  induction xs generalizing prev with
  | nil => rfl
  | cons x rest ih => simp [emaGo, ih]

lemma emaGo_get?_zero (a prev : ℚ) (xs : List ℚ) (price : ℚ)
    (h : xs.get? 0 = some price) :
    (emaGo a prev xs).get? 0 = some (emaStep a prev price) := by
  cases xs with
  | nil => simp at h
  | cons x rest =>
    simp only [List.get?_cons_zero, Option.some.injEq] at h
    simp [emaGo, h]

lemma emaGo_get?_succ (a : ℚ) (xs : List ℚ) (prev : ℚ) (i : ℕ) (price q : ℚ)
    (hx : xs.get? (i + 1) = some price)
    (hq : (emaGo a prev xs).get? i = some q) :
    (emaGo a prev xs).get? (i + 1) = some (emaStep a q price) := by
  induction xs generalizing prev i with
  | nil => simp at hx
  | cons x rest ih =>
    cases i with
    | zero =>
      simp only [emaGo, List.get?_cons_zero, Option.some.injEq] at hq
      simp only [List.get?_cons_succ] at hx
      simp only [emaGo, List.get?_cons_succ]
      rw [← hq]
      exact emaGo_get?_zero a _ rest price hx
    | succ j =>
      simp only [List.get?_cons_succ] at hx
      simp only [emaGo, List.get?_cons_succ] at hq ⊢
      exact ih (emaStep a prev x) j hx hq

/-- Claim C5: for every non-empty closing-price list and positive span,
`calculate_ema` has the same length as its input, starts at the first input
value, and each later output obeys
`ema[i] = price[i] * α + ema[i-1] * (1 - α)` with `α = 2 / (span + 1)`. -/
theorem claim_C5 (closes : List ℚ) (span : ℕ)
    (hne : closes ≠ []) (hs : 0 < span) :
    (calculate_ema closes span).length = closes.length ∧
    (calculate_ema closes span).get? 0 = closes.get? 0 ∧
    (∀ i price prev,
      closes.get? (i + 1) = some price →
      (calculate_ema closes span).get? i = some prev →
      (calculate_ema closes span).get? (i + 1) =
        some (price * alpha span + prev * (1 - alpha span))) := by
  cases closes with
  | nil => exact absurd rfl hne
  | cons p ps =>
    refine ⟨by simp [calculate_ema, emaGo_length], rfl, ?_⟩
    intro i price prev hx hq
    cases i with
    | zero =>
      simp only [calculate_ema, List.get?_cons_zero, Option.some.injEq] at hq
      simp only [List.get?_cons_succ] at hx
      simp only [calculate_ema, List.get?_cons_succ]
      have := emaGo_get?_zero (alpha span) prev ps price hx
      rw [hq]
      simpa [emaStep] using this
    | succ j =>
      simp only [List.get?_cons_succ] at hx
      simp only [calculate_ema, List.get?_cons_succ] at hq ⊢
      simpa [emaStep] using emaGo_get?_succ (alpha span) ps p j price prev hx hq

/-- Witness for C5 at the concrete input `[1, 3]` with span `1`. -/
theorem claim_C5_witness :
    (calculate_ema [1, 3] 1).length = ([1, 3] : List ℚ).length ∧
    (calculate_ema [1, 3] 1).get? 0 = ([1, 3] : List ℚ).get? 0 ∧
    (∀ i price prev,
      ([1, 3] : List ℚ).get? (i + 1) = some price →
      (calculate_ema [1, 3] 1).get? i = some prev →
      (calculate_ema [1, 3] 1).get? (i + 1) =
        some (price * alpha 1 + prev * (1 - alpha 1))) :=
  claim_C5 [1, 3] 1 (by decide) (by decide)

lemma emaStep_self (a V : ℚ) : emaStep a V V = V := by
  unfold emaStep; ring

lemma emaGo_const (a V : ℚ) (n : ℕ) :
    emaGo a V (List.replicate n V) = List.replicate n V := by
  induction n with
  | zero => rfl
  | succ m ih => simp [List.replicate_succ, emaGo, emaStep_self, ih]

/-- Claim C6: a constant price series is a fixed point of the EMA
transform — `calculate_ema` maps `replicate n V` to itself. -/
theorem claim_C6 (n : ℕ) (V : ℚ) (span : ℕ) (hn : 1 ≤ n) (hs : 1 ≤ span) :
    calculate_ema (List.replicate n V) span = List.replicate n V := by
  cases n with
  | zero => omega
  | succ m =>
    simp [List.replicate_succ, calculate_ema, emaGo_const]

/-- Witness for C6 at `n = 3`, `V = 5`, `span = 2`. -/
theorem claim_C6_witness :
    calculate_ema (List.replicate 3 (5 : ℚ)) 2 = List.replicate 3 (5 : ℚ) :=
  claim_C6 3 5 2 (by decide) (by decide)

/-- `check_ema_crossover` (`emacrossover.py` lines 79-97): LONG when the fast
EMA crosses from at-or-below to strictly above the slow EMA, SHORT when it
crosses from at-or-above to strictly below, otherwise no signal. -/
def check_ema_crossover (current : EMASnapshot) : Option Direction :=
  if current.ema_fast_prev ≤ current.ema_slow_prev ∧
      current.ema_fast > current.ema_slow then
    some Direction.LONG
  else if current.ema_fast_prev ≥ current.ema_slow_prev ∧
      current.ema_fast < current.ema_slow then
    some Direction.SHORT
  else
    none

/-- The dict returned by `check_htf_alignment`
(`emacrossover.py` lines 116-123). -/
structure HTFData where
  aligned_15m : Bool
  aligned_30m : Bool
  ema_fast_15m : ℚ
  ema_slow_15m : ℚ
  ema_fast_30m : ℚ
  ema_slow_30m : ℚ
deriving DecidableEq

/-- `check_htf_alignment` (`emacrossover.py` lines 100-123).  In the Python
code this function fetches the 15m and 30m snapshots itself via
`get_ema_values`; here the two fetched snapshots are passed in (the fetch
attempts are recorded by `runMain`).  For LONG both timeframes must have the
fast EMA strictly above the slow EMA, for SHORT strictly below. -/
def check_htf_alignment (htf_15m htf_30m : EMASnapshot)
    (direction : Direction) : HTFData :=
  let pair :=
    match direction with
    | Direction.LONG =>
      (decide (htf_15m.ema_fast > htf_15m.ema_slow),
       decide (htf_30m.ema_fast > htf_30m.ema_slow))
    | Direction.SHORT =>
      (decide (htf_15m.ema_fast < htf_15m.ema_slow),
       decide (htf_30m.ema_fast < htf_30m.ema_slow))
  { aligned_15m := pair.1
    aligned_30m := pair.2
    ema_fast_15m := htf_15m.ema_fast
    ema_slow_15m := htf_15m.ema_slow
    ema_fast_30m := htf_30m.ema_fast
    ema_slow_30m := htf_30m.ema_slow }

/-- Claim C3: the crossover detector returns LONG exactly when
`fast_prev ≤ slow_prev` and `fast_now > slow_now`, SHORT exactly when
`fast_prev ≥ slow_prev` and `fast_now < slow_now`, NONE otherwise, and equal
current values never yield a signal. -/
theorem claim_C3 (s : EMASnapshot) :
    (check_ema_crossover s = some Direction.LONG ↔
      (s.ema_fast_prev ≤ s.ema_slow_prev ∧ s.ema_fast > s.ema_slow)) ∧
    (check_ema_crossover s = some Direction.SHORT ↔
      (s.ema_fast_prev ≥ s.ema_slow_prev ∧ s.ema_fast < s.ema_slow)) ∧
    ((¬ (s.ema_fast_prev ≤ s.ema_slow_prev ∧ s.ema_fast > s.ema_slow) ∧
      ¬ (s.ema_fast_prev ≥ s.ema_slow_prev ∧ s.ema_fast < s.ema_slow)) →
      check_ema_crossover s = none) ∧
    (s.ema_fast = s.ema_slow → check_ema_crossover s = none) := by
  unfold check_ema_crossover
  split_ifs with h1 h2
  · refine ⟨by simp [h1], by simp; exact fun _ => h1.2.le,
      fun h => absurd h1 h.1, fun he => ?_⟩
    exact absurd h1.2 (by simp [he])
  · refine ⟨by simp [h1], by simp [h2], fun h => absurd h2 h.2, fun he => ?_⟩
    exact absurd h2.2 (by simp [he])
  · exact ⟨by simp [h1], by simp [h2], fun _ => rfl, fun _ => rfl⟩

/-- Witness for C3 at the concrete snapshot
`fast_prev = 10, slow_prev = 12, fast_now = 13, slow_now = 12`. -/
theorem claim_C3_witness :
    check_ema_crossover ⟨13, 12, 10, 12, 0, 0⟩ = some Direction.LONG :=
  (claim_C3 ⟨13, 12, 10, 12, 0, 0⟩).1.mpr (by constructor <;> decide)

/-- Claim C4: alignment is a static ordering test on the current EMA values —
aligned exactly when `fast_now > slow_now` (LONG) or `fast_now < slow_now`
(SHORT) on that timeframe, equality is never aligned, and the previous EMA
values (the crossover condition) are never consulted. -/
theorem claim_C4 (htf_15m htf_30m : EMASnapshot) (direction : Direction) :
    ((check_htf_alignment htf_15m htf_30m direction).aligned_15m = true ↔
      ((direction = Direction.LONG ∧ htf_15m.ema_fast > htf_15m.ema_slow) ∨
       (direction = Direction.SHORT ∧ htf_15m.ema_fast < htf_15m.ema_slow))) ∧
    ((check_htf_alignment htf_15m htf_30m direction).aligned_30m = true ↔
      ((direction = Direction.LONG ∧ htf_30m.ema_fast > htf_30m.ema_slow) ∨
       (direction = Direction.SHORT ∧ htf_30m.ema_fast < htf_30m.ema_slow))) ∧
    (htf_15m.ema_fast = htf_15m.ema_slow →
      (check_htf_alignment htf_15m htf_30m direction).aligned_15m = false) ∧
    (htf_30m.ema_fast = htf_30m.ema_slow →
      (check_htf_alignment htf_15m htf_30m direction).aligned_30m = false) ∧
    (∀ a b : EMASnapshot,
      a.ema_fast = htf_15m.ema_fast → a.ema_slow = htf_15m.ema_slow →
      b.ema_fast = htf_30m.ema_fast → b.ema_slow = htf_30m.ema_slow →
      check_htf_alignment a b direction =
        check_htf_alignment htf_15m htf_30m direction) := by
  cases direction with
  | LONG =>
    refine ⟨by simp [check_htf_alignment], by simp [check_htf_alignment],
      fun he => by simp [check_htf_alignment, he],
      fun he => by simp [check_htf_alignment, he], ?_⟩
    intro a b h1 h2 h3 h4
    simp [check_htf_alignment, h1, h2, h3, h4]
  | SHORT =>
    refine ⟨by simp [check_htf_alignment], by simp [check_htf_alignment],
      fun he => by simp [check_htf_alignment, he],
      fun he => by simp [check_htf_alignment, he], ?_⟩
    intro a b h1 h2 h3 h4
    simp [check_htf_alignment, h1, h2, h3, h4]

/-- Witness for C4: instantiation at concrete snapshots with
`fast = 59100 > slow = 59000` (15m) and `fast = 58900 < slow = 59000` (30m)
for direction LONG. -/
theorem claim_C4_witness :
    (check_htf_alignment ⟨59100, 59000, 0, 0, 0, 0⟩ ⟨58900, 59000, 0, 0, 0, 0⟩
        Direction.LONG).aligned_15m = true ∧
    (check_htf_alignment ⟨59100, 59000, 0, 0, 0, 0⟩ ⟨58900, 59000, 0, 0, 0, 0⟩
        Direction.LONG).aligned_30m = false :=
  ⟨(claim_C4 ⟨59100, 59000, 0, 0, 0, 0⟩ ⟨58900, 59000, 0, 0, 0, 0⟩
      Direction.LONG).1.mpr (Or.inl ⟨rfl, by decide⟩),
   by decide⟩

/-- Claim C10: a detected crossover implies same-direction alignment on the
same snapshot — if `check_ema_crossover` fires LONG then `fast_now > slow_now`
holds, so `check_htf_alignment` reports that snapshot aligned for LONG
(whichever timeframe slot it occupies), and symmetrically for SHORT. -/
theorem claim_C10 (s t : EMASnapshot) (d : Direction)
    (h : check_ema_crossover s = some d) :
    (check_htf_alignment s t d).aligned_15m = true ∧
    (check_htf_alignment t s d).aligned_30m = true := by
  unfold check_ema_crossover at h
  split_ifs at h with h1 h2
  · cases h
    exact ⟨by simp [check_htf_alignment, h1.2],
      by simp [check_htf_alignment, h1.2]⟩
  · cases h
    exact ⟨by simp [check_htf_alignment, h2.2],
      by simp [check_htf_alignment, h2.2]⟩

/-- Witness for C10 at a concrete LONG-crossover snapshot. -/
theorem claim_C10_witness :
    (check_htf_alignment ⟨13, 12, 10, 12, 0, 0⟩ ⟨1, 1, 1, 1, 0, 0⟩
        Direction.LONG).aligned_15m = true ∧
    (check_htf_alignment ⟨1, 1, 1, 1, 0, 0⟩ ⟨13, 12, 10, 12, 0, 0⟩
        Direction.LONG).aligned_30m = true :=
  claim_C10 ⟨13, 12, 10, 12, 0, 0⟩ ⟨1, 1, 1, 1, 0, 0⟩ Direction.LONG (by decide)

/-- One parsed kline row: the twelve Binance columns named in `fetch_klines`
(`emacrossover.py` lines 43-47); `open` is a Lean keyword, so the open price
field is `open_price`.  Timestamps and prices are kept as rationals. -/
structure Kline where
  open_time : ℚ
  open_price : ℚ
  high : ℚ
  low : ℚ
  close : ℚ
  volume : ℚ
  close_time : ℚ
  quote_volume : ℚ
  trades : ℚ
  taker_buy_base : ℚ
  taker_buy_quote : ℚ
  ignore : ℚ
deriving DecidableEq

/-- The failure taxonomy of the spec for the candle source:
`sourceUnavailable` models a `requests` network/HTTP error
(`response.raise_for_status()`), `sourceDataError` models the `ValueError` the
`pd.DataFrame(...)` constructor raises on rows of the wrong width. -/
inductive FetchError where
  | sourceUnavailable
  | sourceDataError
deriving DecidableEq

/-- The decoded JSON response of the kline endpoint as seen by
`fetch_klines`: either the HTTP request failed, or it yielded a list of raw
rows (each a list of fields). -/
structure KlinesResponse where
  httpError : Bool
  rows : List (List ℚ)
deriving DecidableEq

/-- Building one `Kline` from a raw row: succeeds exactly when the row has
the twelve fields `pd.DataFrame` expects for the named columns. -/
def parseRow : List ℚ → Option Kline
  | [a, b, c, d, e, f, g, h, i, j, k, l] =>
    some ⟨a, b, c, d, e, f, g, h, i, j, k, l⟩
  | _ => none

/-- All-or-nothing parse of the response rows, as `pd.DataFrame` does:
any malformed row fails the whole construction. -/
def parseRows : List (List ℚ) → Option (List Kline)
  | [] => some []
  | r :: rs =>
    match parseRow r, parseRows rs with
    | some k, some ks => some (k :: ks)
    | _, _ => none

/-- `fetch_klines` (`emacrossover.py` lines 30-53): raise on HTTP error,
build the dataframe from the rows, and return it.  Note the Python code never
inspects `limit` against the number of rows actually returned. -/
def fetch_klines (resp : KlinesResponse) (limit : ℕ) :
    Except FetchError (List Kline) :=
  if resp.httpError then Except.error FetchError.sourceUnavailable
  else
    match parseRows resp.rows with
    | none => Except.error FetchError.sourceDataError
    | some ks => Except.ok ks

lemma parseRows_eq_none_iff (rows : List (List ℚ)) :
    parseRows rows = none ↔ ∃ r ∈ rows, parseRow r = none := by
  induction rows with
  | nil => simp [parseRows]
  | cons r rs ih =>
    constructor
    · intro h
      cases hr : parseRow r with
      | none => exact ⟨r, List.mem_cons_self r rs, hr⟩
      | some k =>
        cases hrs : parseRows rs with
        | none =>
          obtain ⟨x, hx, hpx⟩ := ih.mp hrs
          exact ⟨x, List.mem_cons_of_mem r hx, hpx⟩
        | some ks => simp [parseRows, hr, hrs] at h
    · rintro ⟨x, hx, hpx⟩
      rcases List.mem_cons.mp hx with rfl | hx
      · simp [parseRows, hpx]
      · have hn : parseRows rs = none := ih.mpr ⟨x, hx, hpx⟩
        simp only [parseRows, hn]
        cases parseRow r <;> rfl

lemma parseRows_length (rows : List (List ℚ)) (ks : List Kline)
    (h : parseRows rows = some ks) : ks.length = rows.length := by
  induction rows generalizing ks with
  | nil => simp [parseRows] at h; simp [← h]
  | cons r rs ih =>
    cases hr : parseRow r with
    | none => simp [parseRows, hr] at h
    | some k =>
      cases hrs : parseRows rs with
      | none => simp [parseRows, hr, hrs] at h
      | some ks0 =>
        simp only [parseRows, hr, hrs, Option.some.injEq] at h
        subst h
        simp [ih ks0 hrs]

/-- Counterexample to claim C8: a well-formed response carrying only two rows
against a requested count of five is returned as-is — `fetch_klines` does not
fail with a data error and hands back a list shorter than the requested
count. -/
theorem claim_C8_counterexample :
    (fetch_klines
        ⟨false, [[1, 2, 3, 4, 5, 6, 7, 8, 9, 10, 11, 0],
                 [1, 2, 3, 4, 5, 6, 7, 8, 9, 10, 11, 0]]⟩ 5).toOption.map
        List.length = some 2 ∧
    (2 : ℕ) < 5 := by
  constructor
  · rfl
  · decide

/-- Claim C8 as amended: `fetch_klines` fails with `sourceUnavailable` on a
network/HTTP error and with `sourceDataError` exactly when some row cannot be
parsed into the twelve-column shape; on success it returns one kline per
response row — in particular no minimum-row-count check against the requested
`limit` is performed, and a short response is returned as-is. -/
theorem claim_C8_amended (resp : KlinesResponse) (limit : ℕ) :
    (resp.httpError = true →
      fetch_klines resp limit = Except.error FetchError.sourceUnavailable) ∧
    (resp.httpError = false →
      (fetch_klines resp limit = Except.error FetchError.sourceDataError ↔
        ∃ r ∈ resp.rows, parseRow r = none)) ∧
    (∀ ks, fetch_klines resp limit = Except.ok ks →
      ks.length = resp.rows.length) := by
  refine ⟨fun h => by simp [fetch_klines, h], fun h => ?_, fun ks hk => ?_⟩
  · rw [← parseRows_eq_none_iff]
    cases hp : parseRows resp.rows with
    | none => simp [fetch_klines, h, hp]
    | some ks => simp [fetch_klines, h, hp]
  · by_cases h : resp.httpError
    · simp [fetch_klines, h] at hk
    · cases hp : parseRows resp.rows with
      | none => simp [fetch_klines, h, hp] at hk
      | some ks0 =>
        simp only [fetch_klines, h, if_neg, hp, Bool.false_eq_true,
          if_false, Except.ok.injEq] at hk
        subst hk
        exact parseRows_length resp.rows ks0 hp

/-- Witness for the amended C8 at a concrete one-row response. -/
theorem claim_C8_amended_witness :
    ((⟨false, [[1, 2, 3, 4, 5, 6, 7, 8, 9, 10, 11, 0]]⟩ :
        KlinesResponse).httpError = false →
      (fetch_klines ⟨false, [[1, 2, 3, 4, 5, 6, 7, 8, 9, 10, 11, 0]]⟩ 70 =
          Except.error FetchError.sourceDataError ↔
        ∃ r ∈ (⟨false, [[1, 2, 3, 4, 5, 6, 7, 8, 9, 10, 11, 0]]⟩ :
            KlinesResponse).rows, parseRow r = none)) ∧
    (∀ ks, fetch_klines ⟨false, [[1, 2, 3, 4, 5, 6, 7, 8, 9, 10, 11, 0]]⟩ 70 =
        Except.ok ks →
      ks.length = (⟨false, [[1, 2, 3, 4, 5, 6, 7, 8, 9, 10, 11, 0]]⟩ :
          KlinesResponse).rows.length) :=
  ⟨(claim_C8_amended ⟨false, [[1, 2, 3, 4, 5, 6, 7, 8, 9, 10, 11, 0]]⟩ 70).2.1,
   (claim_C8_amended ⟨false, [[1, 2, 3, 4, 5, 6, 7, 8, 9, 10, 11, 0]]⟩ 70).2.2⟩

/-- A `requests` exception raised while posting to the Telegram API. -/
inductive RequestException where
  | httpError
deriving DecidableEq

/-- `send_telegram_alert` (`emacrossover.py` lines 126-142): the HTTP post
result is passed in; a raised `RequestException` is caught and logged and the
function returns `false`, a successful post returns `true`.  The function
never propagates the failure and performs exactly one post per call. -/
def send_telegram_alert (postResult : Except RequestException Unit) : Bool :=
  match postResult with
  | Except.ok _ => true
  | Except.error _ => false

/-- The terminal states of one run of `main`
(`emacrossover.py` lines 173-214). -/
inductive Outcome where
  | error
  | noSignal
  | rejected15m
  | rejected30m
  | confirmed
deriving DecidableEq

/-- The timeframes whose klines `main` may request during a run. -/
inductive TF where
  | base5m
  | htf15m
  | htf30m
deriving DecidableEq

/-- The distinct Telegram messages `main` can send, identified by the format
string used to build them (`emacrossover.py` lines 185, 189, 196, 201, 207). -/
inductive Msg where
  | noCrossoverMsg
  | crossoverDetectedMsg (d : Direction)
  | notAligned15mMsg (d : Direction)
  | notAligned30mMsg (d : Direction)
  | confirmedAlertMsg (d : Direction)
deriving DecidableEq

/-- The fetch results available to one run: per timeframe, the value
`get_ema_values` would return, with `none` standing for a raised
`requests.exceptions.RequestException` (caught in `main` as an API error). -/
structure FetchEnv where
  base5m : Option EMASnapshot
  htf15m : Option EMASnapshot
  htf30m : Option EMASnapshot
deriving DecidableEq

/-- The observable behaviour of one run of `main`: the terminal state, the
ordered list of Telegram send attempts (message, delivery result), and the
ordered list of kline fetch attempts. -/
structure RunResult where
  outcome : Outcome
  sends : List (Msg × Bool)
  fetches : List TF
deriving DecidableEq

/-- `main` (`emacrossover.py` lines 173-214), instrumented with the fetch and
send attempts it makes.  The 5m snapshot is fetched first; on a crossover a
status message is sent, then `check_htf_alignment` fetches the 15m and then
the 30m snapshot (both before any alignment test), and `main` rejects on the
first non-aligned timeframe or sends the full confirmed alert.  A failed
fetch (`none`) raises, caught by the `except RequestException` clause, which
only prints — the `.error` outcome sends nothing further. -/
def runMain (env : FetchEnv) (delivery : Msg → Except RequestException Unit) :
    RunResult :=
  match env.base5m with
  | none => { outcome := Outcome.error, sends := [], fetches := [TF.base5m] }
  | some data_5m =>
    match check_ema_crossover data_5m with
    | none =>
      { outcome := Outcome.noSignal
        sends := [(Msg.noCrossoverMsg,
                   send_telegram_alert (delivery Msg.noCrossoverMsg))]
        fetches := [TF.base5m] }
    | some crossover =>
      let s1 := (Msg.crossoverDetectedMsg crossover,
                 send_telegram_alert (delivery (Msg.crossoverDetectedMsg crossover)))
      match env.htf15m with
      | none =>
        { outcome := Outcome.error, sends := [s1],
          fetches := [TF.base5m, TF.htf15m] }
      | some htf_15m =>
        match env.htf30m with
        | none =>
          { outcome := Outcome.error, sends := [s1],
            fetches := [TF.base5m, TF.htf15m, TF.htf30m] }
        | some htf_30m =>
          let htf_data := check_htf_alignment htf_15m htf_30m crossover
          if htf_data.aligned_15m = false then
            { outcome := Outcome.rejected15m
              sends := [s1, (Msg.notAligned15mMsg crossover,
                send_telegram_alert (delivery (Msg.notAligned15mMsg crossover)))]
              fetches := [TF.base5m, TF.htf15m, TF.htf30m] }
          else if htf_data.aligned_30m = false then
            { outcome := Outcome.rejected30m
              sends := [s1, (Msg.notAligned30mMsg crossover,
                send_telegram_alert (delivery (Msg.notAligned30mMsg crossover)))]
              fetches := [TF.base5m, TF.htf15m, TF.htf30m] }
          else
            { outcome := Outcome.confirmed
              sends := [s1, (Msg.confirmedAlertMsg crossover,
                send_telegram_alert (delivery (Msg.confirmedAlertMsg crossover)))]
              fetches := [TF.base5m, TF.htf15m, TF.htf30m] }

/-- Whether a Telegram message describes a given terminal outcome: the
no-crossover report describes NO_SIGNAL, the two skipping-signal reports
describe the matching rejection, the full alert describes CONFIRMED; the
intermediate "crossover detected, checking HTF" status and the ERROR state
(which is only printed, never sent) are described by nothing. -/
def describes (m : Msg) (o : Outcome) : Bool :=
  match m, o with
  | Msg.noCrossoverMsg, Outcome.noSignal => true
  | Msg.notAligned15mMsg _, Outcome.rejected15m => true
  | Msg.notAligned30mMsg _, Outcome.rejected30m => true
  | Msg.confirmedAlertMsg _, Outcome.confirmed => true
  | _, _ => false

/-- Counterexample to claim C1: with a LONG crossover on 5m and the 15m
timeframe not aligned, the run still fetches the 30m timeframe and computes
its alignment — `check_htf_alignment` evaluates both higher timeframes before
`main` looks at either flag — contradicting "the HTF_2 alignment is never
evaluated (no HTF_2 fetch or alignment computation occurs)". -/
theorem claim_C1_counterexample :
    check_ema_crossover ⟨13, 12, 10, 12, 0, 0⟩ = some Direction.LONG ∧
    (check_htf_alignment ⟨58900, 59000, 0, 0, 0, 0⟩ ⟨59200, 59000, 0, 0, 0, 0⟩
        Direction.LONG).aligned_15m = false ∧
    TF.htf30m ∈ (runMain
        ⟨some ⟨13, 12, 10, 12, 0, 0⟩, some ⟨58900, 59000, 0, 0, 0, 0⟩,
         some ⟨59200, 59000, 0, 0, 0, 0⟩⟩
        (fun _ => Except.ok ())).fetches ∧
    (check_htf_alignment ⟨58900, 59000, 0, 0, 0, 0⟩ ⟨59200, 59000, 0, 0, 0, 0⟩
        Direction.LONG).aligned_30m = true := by
  decide

/-- Claim C1 as amended: when the base crossover fires, all three fetches
succeed, and the 15m alignment is false, the run terminates REJECTED at 15m
with a single rejection report that names the 15m timeframe (after the
intermediate crossover status message) and no 30m rejection or confirmed
alert — but the 30m timeframe is still fetched (and its alignment computed
inside `check_htf_alignment`) before the 15m flag is inspected. -/
theorem claim_C1_amended (env : FetchEnv)
    (delivery : Msg → Except RequestException Unit)
    (s h15 h30 : EMASnapshot) (d : Direction)
    (hb : env.base5m = some s)
    (h1 : env.htf15m = some h15)
    (h2 : env.htf30m = some h30)
    (hc : check_ema_crossover s = some d)
    (hA : (check_htf_alignment h15 h30 d).aligned_15m = false) :
    (runMain env delivery).outcome = Outcome.rejected15m ∧
    (runMain env delivery).sends.map Prod.fst =
      [Msg.crossoverDetectedMsg d, Msg.notAligned15mMsg d] ∧
    (runMain env delivery).fetches = [TF.base5m, TF.htf15m, TF.htf30m] := by
  obtain ⟨b, f15, f30⟩ := env
  simp only at hb h1 h2
  subst hb h1 h2
  simp [runMain, hc, hA]

/-- Witness for the amended C1 at the counterexample inputs. -/
theorem claim_C1_amended_witness :
    (runMain ⟨some ⟨13, 12, 10, 12, 0, 0⟩, some ⟨58900, 59000, 0, 0, 0, 0⟩,
        some ⟨59200, 59000, 0, 0, 0, 0⟩⟩
      (fun _ => Except.ok ())).outcome = Outcome.rejected15m ∧
    (runMain ⟨some ⟨13, 12, 10, 12, 0, 0⟩, some ⟨58900, 59000, 0, 0, 0, 0⟩,
        some ⟨59200, 59000, 0, 0, 0, 0⟩⟩
      (fun _ => Except.ok ())).sends.map Prod.fst =
      [Msg.crossoverDetectedMsg Direction.LONG,
       Msg.notAligned15mMsg Direction.LONG] ∧
    (runMain ⟨some ⟨13, 12, 10, 12, 0, 0⟩, some ⟨58900, 59000, 0, 0, 0, 0⟩,
        some ⟨59200, 59000, 0, 0, 0, 0⟩⟩
      (fun _ => Except.ok ())).fetches = [TF.base5m, TF.htf15m, TF.htf30m] :=
  claim_C1_amended _ _ ⟨13, 12, 10, 12, 0, 0⟩ ⟨58900, 59000, 0, 0, 0, 0⟩
    ⟨59200, 59000, 0, 0, 0, 0⟩ Direction.LONG rfl rfl rfl
    (by decide) (by decide)

/-- Claim C2: with all three fetches succeeding, the run terminates CONFIRMED
exactly when the base crossover is not NONE and both higher-timeframe
alignments are true; in that case the full confirmed alert is sent after the
status message, and if the crossover fired but either alignment is false the
outcome is one of the two REJECTED states. -/
theorem claim_C2 (env : FetchEnv)
    (delivery : Msg → Except RequestException Unit)
    (s h15 h30 : EMASnapshot)
    (hb : env.base5m = some s)
    (h1 : env.htf15m = some h15)
    (h2 : env.htf30m = some h30) :
    ((runMain env delivery).outcome = Outcome.confirmed ↔
      ∃ d, check_ema_crossover s = some d ∧
        (check_htf_alignment h15 h30 d).aligned_15m = true ∧
        (check_htf_alignment h15 h30 d).aligned_30m = true) ∧
    (∀ d, check_ema_crossover s = some d →
      (check_htf_alignment h15 h30 d).aligned_15m = true →
      (check_htf_alignment h15 h30 d).aligned_30m = true →
      (runMain env delivery).sends.map Prod.fst =
        [Msg.crossoverDetectedMsg d, Msg.confirmedAlertMsg d]) ∧
    (∀ d, check_ema_crossover s = some d →
      ((check_htf_alignment h15 h30 d).aligned_15m = false ∨
       (check_htf_alignment h15 h30 d).aligned_30m = false) →
      ((runMain env delivery).outcome = Outcome.rejected15m ∨
       (runMain env delivery).outcome = Outcome.rejected30m)) := by
  obtain ⟨b, f15, f30⟩ := env
  simp only at hb h1 h2
  subst hb h1 h2
  cases hc : check_ema_crossover s with
  | none =>
    refine ⟨?_, ?_, ?_⟩
    · simp [runMain, hc]
    · intro d hd; simp at hd
    · intro d hd; simp at hd
  | some d0 =>
    by_cases hA : (check_htf_alignment h15 h30 d0).aligned_15m = false
    · refine ⟨?_, ?_, ?_⟩
      · simp only [runMain, hc, hA, if_true]
        constructor
        · intro h; cases h
        · rintro ⟨d, hd, hA15, _⟩
          injection hd with hd; subst hd
          rw [hA15] at hA; cases hA
      · intro d hd hA15 _
        injection hd with hd; subst hd
        rw [hA15] at hA; cases hA
      · intro d hd _
        injection hd with hd; subst hd
        left; simp [runMain, hc, hA]
    · rw [Bool.not_eq_false] at hA
      by_cases hB : (check_htf_alignment h15 h30 d0).aligned_30m = false
      · refine ⟨?_, ?_, ?_⟩
        · simp only [runMain, hc, hA, hB, Bool.true_eq_false, if_false, if_true]
          constructor
          · intro h; cases h
          · rintro ⟨d, hd, _, hA30⟩
            injection hd with hd; subst hd
            rw [hA30] at hB; cases hB
        · intro d hd _ hA30
          injection hd with hd; subst hd
          rw [hA30] at hB; cases hB
        · intro d hd _
          injection hd with hd; subst hd
          right; simp [runMain, hc, hA, hB]
      · rw [Bool.not_eq_false] at hB
        refine ⟨?_, ?_, ?_⟩
        · simp only [runMain, hc, hA, hB, Bool.true_eq_false, if_false]
          exact ⟨fun _ => ⟨d0, rfl, hA, hB⟩, fun _ => trivial⟩
        · intro d hd _ _
          injection hd with hd; subst hd
          simp [runMain, hc, hA, hB]
        · intro d hd h
          injection hd with hd; subst hd
          rcases h with h | h
          · rw [hA] at h; cases h
          · rw [hB] at h; cases h

/-- Witness for C2 at a concrete confirmed LONG run. -/
theorem claim_C2_witness :
    ((runMain ⟨some ⟨13, 12, 10, 12, 0, 0⟩, some ⟨59100, 59000, 0, 0, 0, 0⟩,
          some ⟨59200, 59000, 0, 0, 0, 0⟩⟩
        (fun _ => Except.ok ())).outcome = Outcome.confirmed ↔
      ∃ d, check_ema_crossover ⟨13, 12, 10, 12, 0, 0⟩ = some d ∧
        (check_htf_alignment ⟨59100, 59000, 0, 0, 0, 0⟩
            ⟨59200, 59000, 0, 0, 0, 0⟩ d).aligned_15m = true ∧
        (check_htf_alignment ⟨59100, 59000, 0, 0, 0, 0⟩
            ⟨59200, 59000, 0, 0, 0, 0⟩ d).aligned_30m = true) ∧
    (∀ d, check_ema_crossover ⟨13, 12, 10, 12, 0, 0⟩ = some d →
      (check_htf_alignment ⟨59100, 59000, 0, 0, 0, 0⟩
          ⟨59200, 59000, 0, 0, 0, 0⟩ d).aligned_15m = true →
      (check_htf_alignment ⟨59100, 59000, 0, 0, 0, 0⟩
          ⟨59200, 59000, 0, 0, 0, 0⟩ d).aligned_30m = true →
      (runMain ⟨some ⟨13, 12, 10, 12, 0, 0⟩, some ⟨59100, 59000, 0, 0, 0, 0⟩,
          some ⟨59200, 59000, 0, 0, 0, 0⟩⟩
        (fun _ => Except.ok ())).sends.map Prod.fst =
        [Msg.crossoverDetectedMsg d, Msg.confirmedAlertMsg d]) ∧
    (∀ d, check_ema_crossover ⟨13, 12, 10, 12, 0, 0⟩ = some d →
      ((check_htf_alignment ⟨59100, 59000, 0, 0, 0, 0⟩
          ⟨59200, 59000, 0, 0, 0, 0⟩ d).aligned_15m = false ∨
       (check_htf_alignment ⟨59100, 59000, 0, 0, 0, 0⟩
          ⟨59200, 59000, 0, 0, 0, 0⟩ d).aligned_30m = false) →
      ((runMain ⟨some ⟨13, 12, 10, 12, 0, 0⟩, some ⟨59100, 59000, 0, 0, 0, 0⟩,
          some ⟨59200, 59000, 0, 0, 0, 0⟩⟩
        (fun _ => Except.ok ())).outcome = Outcome.rejected15m ∨
       (runMain ⟨some ⟨13, 12, 10, 12, 0, 0⟩, some ⟨59100, 59000, 0, 0, 0, 0⟩,
          some ⟨59200, 59000, 0, 0, 0, 0⟩⟩
        (fun _ => Except.ok ())).outcome = Outcome.rejected30m)) :=
  claim_C2 _ _ ⟨13, 12, 10, 12, 0, 0⟩ ⟨59100, 59000, 0, 0, 0, 0⟩
    ⟨59200, 59000, 0, 0, 0, 0⟩ rfl rfl rfl

/-- Counterexample to claim C7: when the base-timeframe fetch fails, the run
reaches the ERROR terminal state having sent no Telegram message at all —
`main`'s `except` clause only prints — so no single outward notification
describing that outcome is emitted. -/
theorem claim_C7_counterexample :
    (runMain ⟨none, none, none⟩ (fun _ => Except.ok ())).outcome =
      Outcome.error ∧
    ¬ (((runMain ⟨none, none, none⟩ (fun _ => Except.ok ())).sends.filter
        (fun p => describes p.1
          (runMain ⟨none, none, none⟩ (fun _ => Except.ok ())).outcome)).length
        = 1) := by
  decide

/-- Claim C7 as amended: every terminal state except ERROR is described by
exactly one outward notification sent during the run; an ERROR run emits no
notification describing its outcome (the API failure is only printed to the
log, and the only message possibly already sent is the intermediate
crossover status). -/
theorem claim_C7_amended (env : FetchEnv)
    (delivery : Msg → Except RequestException Unit) :
    ((runMain env delivery).sends.filter
        (fun p => describes p.1 (runMain env delivery).outcome)).length =
      if (runMain env delivery).outcome = Outcome.error then 0 else 1 := by
  obtain ⟨b, f15, f30⟩ := env
  cases b with
  | none => simp [runMain]
  | some s =>
    cases hc : check_ema_crossover s with
    | none => simp [runMain, hc, describes]
    | some d =>
      cases f15 with
      | none => simp [runMain, hc, describes]
      | some h15 =>
        cases f30 with
        | none => simp [runMain, hc, describes]
        | some h30 =>
          by_cases hA : (check_htf_alignment h15 h30 d).aligned_15m = false
          · simp [runMain, hc, hA, describes]
          · rw [Bool.not_eq_false] at hA
            by_cases hB : (check_htf_alignment h15 h30 d).aligned_30m = false
            · simp [runMain, hc, hA, hB, describes]
            · rw [Bool.not_eq_false] at hB
              simp [runMain, hc, hA, hB, describes]

/-- Claim C9: a Telegram delivery failure is absorbed at the point of send —
`send_telegram_alert` returns `false` on a raised request exception and
`true` on success, never propagating; the run's terminal state and the
sequence of messages attempted are identical whatever the delivery results
are (a failure never aborts the pipeline); and no message is ever attempted
twice in a run (no retry). -/
theorem claim_C9 :
    (∀ e : RequestException,
      send_telegram_alert (Except.error e) = false) ∧
    (send_telegram_alert (Except.ok ()) = true) ∧
    (∀ (env : FetchEnv)
      (delivery delivery' : Msg → Except RequestException Unit),
      (runMain env delivery).outcome = (runMain env delivery').outcome ∧
      (runMain env delivery).sends.map Prod.fst =
        (runMain env delivery').sends.map Prod.fst) ∧
    (∀ (env : FetchEnv) (delivery : Msg → Except RequestException Unit),
      ((runMain env delivery).sends.map Prod.fst).Nodup) := by
  refine ⟨fun e => rfl, rfl, ?_, ?_⟩ <;>
    intro env delivery <;>
    obtain ⟨b, f15, f30⟩ := env
  all_goals
    first
    | (intro delivery'
       cases b with
       | none => exact ⟨rfl, rfl⟩
       | some s =>
         cases hc : check_ema_crossover s with
         | none => simp [runMain, hc]
         | some d =>
           cases f15 with
           | none => simp [runMain, hc]
           | some h15 =>
             cases f30 with
             | none => simp [runMain, hc]
             | some h30 =>
               by_cases hA : (check_htf_alignment h15 h30 d).aligned_15m = false
               · simp [runMain, hc, hA]
               · rw [Bool.not_eq_false] at hA
                 by_cases hB :
                   (check_htf_alignment h15 h30 d).aligned_30m = false
                 · simp [runMain, hc, hA, hB]
                 · rw [Bool.not_eq_false] at hB
                   simp [runMain, hc, hA, hB])
    | (cases b with
       | none => simp [runMain]
       | some s =>
         cases hc : check_ema_crossover s with
         | none => simp [runMain, hc]
         | some d =>
           cases f15 with
           | none => simp [runMain, hc]
           | some h15 =>
             cases f30 with
             | none => simp [runMain, hc]
             | some h30 =>
               by_cases hA : (check_htf_alignment h15 h30 d).aligned_15m = false
               · simp [runMain, hc, hA]
               · rw [Bool.not_eq_false] at hA
                 by_cases hB :
                   (check_htf_alignment h15 h30 d).aligned_30m = false
                 · simp [runMain, hc, hA, hB]
                 · rw [Bool.not_eq_false] at hB
                   simp [runMain, hc, hA, hB])
